/-
  Verification of the WellCheck/VYBIN backend (server.js).

  Shallow embedding of the Express route handlers and prompt builders of the
  richest snapshot of the server (the one with IP cleanup, dual geolocation
  providers, context-aware resource querying and the conversation-turn limit).
  External collaborators (the LLM provider, the two geolocation providers and
  the JSON parser of the runtime) are passed in as oracle values/functions;
  every handler is embedded together with explicit outbound-call accounting
  so that call-count properties can be stated.

  String handling is done on `String.data` (`List Char`) with executable
  primitives mirroring the JavaScript string operations used by the server
  (`includes`, `startsWith`, `split(',')[0]`, `trim`, `toLowerCase`,
  `substring`, template-literal concatenation, `join`).
-/
import Mathlib

set_option maxRecDepth 40000

namespace WellCheck

/-! ## Character-list string primitives -/

/-- Boolean prefix test on character lists (JS `startsWith`). -/
def charsPrefixOf : List Char → List Char → Bool
  | [], _ => true
  | _ :: _, [] => false
  | a :: as, b :: bs => a == b && charsPrefixOf as bs

/-- Boolean substring test on character lists (JS `includes`). -/
def charsInfixOf (pat : List Char) : List Char → Bool
  | [] => charsPrefixOf pat []
  | c :: rest => charsPrefixOf pat (c :: rest) || charsInfixOf pat rest

theorem charsPrefix_iff (p l : List Char) : charsPrefixOf p l = true ↔ p <+: l := by
  induction p generalizing l with
  | nil => simp [charsPrefixOf]
  | cons a as ih =>
    cases l with
    | nil => simp [charsPrefixOf]
    | cons b bs =>
      simp only [charsPrefixOf, Bool.and_eq_true, beq_iff_eq, ih, List.cons_prefix_cons]

theorem charsInfix_iff (p l : List Char) : charsInfixOf p l = true ↔ p <:+: l := by
  induction l with
  | nil => simp [charsInfixOf, charsPrefix_iff]
  | cons c rest ih =>
    simp [charsInfixOf, charsPrefix_iff, ih, List.infix_cons_iff]

/-- JS `s.includes(sub)`. -/
def strIncludes (s sub : String) : Bool := charsInfixOf sub.data s.data

/-- JS `s.startsWith(p)`. -/
def strStartsWith (s p : String) : Bool := charsPrefixOf p.data s.data

/-- Substring relation on strings, as a proposition. -/
def strContains (s sub : String) : Prop := sub.data <:+: s.data

instance (s sub : String) : Decidable (strContains s sub) := by
  unfold strContains
  infer_instance

/-- ASCII lower-casing of one character (JS `toLowerCase` on the ASCII range). -/
def lowerChar (c : Char) : Char :=
  if 65 ≤ c.toNat ∧ c.toNat ≤ 90 then Char.ofNat (c.toNat + 32) else c

/-- JS `s.toLowerCase()` (ASCII range). -/
def strToLower (s : String) : String := ⟨s.data.map lowerChar⟩

/-- The whitespace characters JS `trim` removes (the common ones). -/
def isSpaceChar (c : Char) : Bool := c == ' ' || c == '\t' || c == '\n' || c == '\r'

/-- JS `s.trim()`. -/
def strTrim (s : String) : String :=
  ⟨((s.data.dropWhile isSpaceChar).reverse.dropWhile isSpaceChar).reverse⟩

/-- JS `s.split(',')[0]`: the prefix before the first comma. -/
def takeBeforeComma (s : String) : String := ⟨s.data.takeWhile (fun c => c != ',')⟩

/-- JS `s.substring(n)` for an ASCII prefix of length `n`. -/
def strDropChars (s : String) (n : Nat) : String := ⟨s.data.drop n⟩

/-- JS truthiness of an optional string field (absent or empty is falsy). -/
def truthyStr : Option String → Bool
  | none => false
  | some s => s != ""

/-- Decimal digit character. -/
def digitChar : Nat → Char
  | 0 => '0' | 1 => '1' | 2 => '2' | 3 => '3' | 4 => '4'
  | 5 => '5' | 6 => '6' | 7 => '7' | 8 => '8' | _ => '9'

/-- Fuelled decimal rendering of a natural number (fuel-structural so the
kernel can evaluate it). -/
def natDigitsAux : Nat → Nat → List Char
  | 0, _ => []
  | fuel + 1, n =>
    if n < 10 then [digitChar n] else natDigitsAux fuel (n / 10) ++ [digitChar (n % 10)]

/-- Decimal rendering of a natural number (JS template-literal interpolation
of a number). -/
def natStr (n : Nat) : String := ⟨natDigitsAux (n + 1) n⟩

/-- JS `array.join(sep)`. -/
def joinSep (sep : String) : List String → String
  | [] => ""
  | [s] => s
  | s :: s2 :: rest => s ++ sep ++ joinSep sep (s2 :: rest)

/-! ## Generic lemmas about the string primitives -/

theorem strContains_refl (s : String) : strContains s s := List.infix_refl _

theorem strContains_appendL {s : String} (t : String) {pat : String}
    (h : strContains s pat) : strContains (s ++ t) pat := by
  obtain ⟨u, v, huv⟩ := h
  exact ⟨u, v ++ t.data, by rw [String.data_append, ← huv]; simp [List.append_assoc]⟩

theorem strContains_appendR (s : String) {t pat : String}
    (h : strContains t pat) : strContains (s ++ t) pat := by
  obtain ⟨u, v, huv⟩ := h
  exact ⟨s.data ++ u, v, by rw [String.data_append, ← huv]; simp [List.append_assoc]⟩

theorem strContains_trans {s x pat : String} (hs : strContains s x)
    (hx : strContains x pat) : strContains s pat := hx.trans hs

theorem strContains_joinSep {sep : String} {l : List String} {x : String} (hx : x ∈ l) :
    strContains (joinSep sep l) x := by
  induction l with
  | nil => cases hx
  | cons s rest ih =>
    cases rest with
    | nil =>
      rcases List.mem_cons.mp hx with h | h
      · subst h; exact strContains_refl _
      · cases h
    | cons s2 rest2 =>
      rcases List.mem_cons.mp hx with h | h
      · subst h
        exact strContains_appendL _ (strContains_appendL _ (strContains_refl _))
      · exact strContains_appendR _ (ih h)

theorem strContains_chars {P : Char → Prop} {s pat : String}
    (h : strContains s pat) (hs : ∀ c ∈ s.data, P c) : ∀ c ∈ pat.data, P c :=
  fun c hc => hs c (h.subset hc)

theorem joinSep_chars {P : Char → Prop} {sep : String} (hsep : ∀ c ∈ sep.data, P c)
    {l : List String} (hl : ∀ x ∈ l, ∀ c ∈ x.data, P c) :
    ∀ c ∈ (joinSep sep l).data, P c := by
  induction l with
  | nil => intro c hc; cases hc
  | cons s rest ih =>
    cases rest with
    | nil =>
      intro c hc
      exact hl s (List.mem_cons_self _ _) c hc
    | cons s2 rest2 =>
      intro c hc
      rw [joinSep, String.data_append, String.data_append] at hc
      rcases List.mem_append.mp hc with hc | hc
      · rcases List.mem_append.mp hc with hc | hc
        · exact hl s (List.mem_cons_self _ _) c hc
        · exact hsep c hc
      · exact ih (fun x hx => hl x (List.mem_cons_of_mem _ hx)) c hc

theorem natDigitsAux_digits :
    ∀ fuel n, ∀ c ∈ natDigitsAux fuel n, 48 ≤ c.toNat ∧ c.toNat ≤ 57 := by
  intro fuel
  induction fuel with
  | zero => intro n c hc; cases hc
  | succ f ih =>
    intro n c hc
    rw [natDigitsAux] at hc
    split at hc
    · rename_i hlt
      rcases List.mem_singleton.mp hc with rfl
      interval_cases n <;> decide
    · rcases List.mem_append.mp hc with hc | hc
      · exact ih (n / 10) c hc
      · rcases List.mem_singleton.mp hc with rfl
        have hlt : n % 10 < 10 := Nat.mod_lt n (by omega)
        generalize hm : n % 10 = m at hlt ⊢
        interval_cases m <;> decide

theorem natStr_digits (n : Nat) : ∀ c ∈ (natStr n).data, 48 ≤ c.toNat ∧ c.toNat ≤ 57 :=
  natDigitsAux_digits (n + 1) n

/-! ## Counting adjacent character pairs and substring occurrences -/

/-- Number of adjacent occurrences of the two-character sequence `NY`. -/
def countNY : List Char → Nat
  | c1 :: c2 :: rest => (if c1 = 'N' ∧ c2 = 'Y' then 1 else 0) + countNY (c2 :: rest)
  | _ => 0

/-- Whether the boundary between two concatenated lists forms an `NY` pair. -/
def bnd (a b : List Char) : Nat :=
  if a.getLast? = some 'N' ∧ b.head? = some 'Y' then 1 else 0

theorem countNY_cons_le (c : Char) (l : List Char) : countNY l ≤ countNY (c :: l) := by
  cases l with
  | nil => simp [countNY]
  | cons d rest => simp [countNY]

theorem countNY_append_ge (a b : List Char) : countNY a + countNY b ≤ countNY (a ++ b) := by
  induction a with
  | nil => simp [countNY]
  | cons c a' ih =>
    cases a' with
    | nil =>
      simpa [countNY] using countNY_cons_le c b
    | cons d a'' =>
      have h1 : countNY (c :: d :: a'' ++ b)
          = (if c = 'N' ∧ d = 'Y' then 1 else 0) + countNY (d :: (a'' ++ b)) := by
        simp [countNY]
      have h2 : countNY (c :: d :: a'')
          = (if c = 'N' ∧ d = 'Y' then 1 else 0) + countNY (d :: a'') := by
        simp [countNY]
      have h3 := ih
      simp only [List.cons_append] at *
      omega

theorem countNY_infix {p l : List Char} (h : p <:+: l) : countNY p ≤ countNY l := by
  obtain ⟨u, v, rfl⟩ := h
  have h1 := countNY_append_ge (u ++ p) v
  have h2 := countNY_append_ge u p
  omega

theorem countNY_append_eq (a b : List Char) :
    countNY (a ++ b) = countNY a + countNY b + bnd a b := by
  induction a with
  | nil => simp [countNY, bnd]
  | cons c a' ih =>
    cases a' with
    | nil =>
      cases b with
      | nil => simp [countNY, bnd]
      | cons d b' =>
        simp [countNY, bnd]
        omega
    | cons d a'' =>
      have hL : List.getLast? (c :: d :: a'') = List.getLast? (d :: a'') :=
        List.getLast?_cons_cons ..
      have hb : bnd (c :: d :: a'') b = bnd (d :: a'') b := by unfold bnd; rw [hL]
      have hs1 : countNY ((c :: d :: a'') ++ b)
          = (if c = 'N' ∧ d = 'Y' then 1 else 0) + countNY ((d :: a'') ++ b) := by
        simp [countNY]
      have hs2 : countNY (c :: d :: a'')
          = (if c = 'N' ∧ d = 'Y' then 1 else 0) + countNY (d :: a'') := by
        simp [countNY]
      rw [hs1, ih, hb, hs2]
      omega

theorem countNY_nomem {l : List Char} (h : 'N' ∉ l) : countNY l = 0 := by
  induction l with
  | nil => rfl
  | cons c rest ih =>
    have hc : c ≠ 'N' := fun he => h (he ▸ List.mem_cons_self c rest)
    have hr : 'N' ∉ rest := fun hm => h (List.mem_cons_of_mem c hm)
    cases rest with
    | nil => rfl
    | cons d r2 =>
      have hstep : countNY (c :: d :: r2)
          = (if c = 'N' ∧ d = 'Y' then 1 else 0) + countNY (d :: r2) := by
        simp [countNY]
      rw [hstep, ih hr, if_neg (fun hh => hc hh.1)]

theorem bnd_of_head {a b : List Char} (h : b.head? ≠ some 'Y') : bnd a b = 0 := by
  unfold bnd
  exact if_neg (fun hh => h hh.2)

theorem bnd_of_last {a b : List Char} (h : a.getLast? ≠ some 'N') : bnd a b = 0 := by
  unfold bnd
  exact if_neg (fun hh => h hh.1)

theorem countNY_append_zero {a b : List Char} (h1 : countNY a = 0) (h2 : countNY b = 0)
    (h3 : bnd a b = 0) : countNY (a ++ b) = 0 := by
  rw [countNY_append_eq, h1, h2, h3]

/-- Number of (possibly overlapping) occurrences of `pat` in a character list. -/
def countOccur (pat : List Char) : List Char → Nat
  | [] => if charsPrefixOf pat [] then 1 else 0
  | c :: rest => (if charsPrefixOf pat (c :: rest) then 1 else 0) + countOccur pat rest

/-! ## The continue-conversation endpoint

Embeds `app.post('/api/continue-conversation')` (server.js).  The request
field `conversationCount` is optional and destructured with a default of 0.
The outbound LLM call is an oracle `llm : Option String`: `some t` is a
successful provider response whose first content block has text `t`, `none`
is a transport failure, a non-2xx provider status or an unreadable body (all
of which the handler turns into a thrown error caught by its catch block).
`llmCalls` counts outbound LLM-provider calls the handler makes. -/

/-- The JSON result of the continue-conversation endpoint, plus outbound-call
accounting. -/
structure ContinueResult where
  success : Bool
  response : Option String
  conversationCount : Option Nat
  error : Option String
  requiresUpgrade : Bool
  llmCalls : Nat
deriving DecidableEq

/-- `app.post('/api/continue-conversation')`. -/
def continueConversation (conversationCountField : Option Nat) (llm : Option String) :
    ContinueResult :=
  let conversationCount := conversationCountField.getD 0
  if conversationCount ≥ 2 then
    { success := false, response := none, conversationCount := none,
      error := some "Conversation limit reached. Upgrade to premium for unlimited conversations.",
      requiresUpgrade := true, llmCalls := 0 }
  else
    match llm with
    | some t =>
        { success := true, response := some t,
          conversationCount := some (conversationCount + 1),
          error := none, requiresUpgrade := false, llmCalls := 1 }
    | none =>
        { success := false, response := none, conversationCount := none,
          error := some "Failed to continue conversation",
          requiresUpgrade := false, llmCalls := 1 }

/-! ## The search-resources endpoint

Embeds the response portion of `app.post('/api/search-resources')`
(server.js): the bracketed-array extraction from the LLM output text, the
`JSON.parse` oracle, the inner parse-failure fallback (which interpolates the
resolved location string), the outer catch fallback, and the `slice(0, 4)`
truncation.  `llmText` is the LLM-call oracle as above; `jsonParse` is the
`JSON.parse` oracle of the runtime (`none` = the parse threw). -/

structure ResourceItem where
  title : String
  description : String
  url : String
deriving DecidableEq

structure SearchResult where
  success : Bool
  resources : List ResourceItem
deriving DecidableEq

/-- The regex match `resourceText.match(/\[[\s\S]*\]/)`: scan to the first
`[` that has some `]` after it. -/
def dropToOpen : List Char → Option (List Char)
  | [] => none
  | c :: rest => if c == '[' && rest.contains ']' then some (c :: rest) else dropToOpen rest

/-- Greedy tail of the regex match: keep everything up to the last `]`. -/
def keepToLastClose (l : List Char) : List Char :=
  (l.reverse.dropWhile (fun c => c != ']')).reverse

/-- The first (greedy) match of `/\[[\s\S]*\]/` in `s`, if any. -/
def extractArray (s : String) : Option String :=
  (dropToOpen s.data).map (fun l => (⟨keepToLastClose l⟩ : String))

/-- The parse-failure fallback resources (inner catch), which embed the
resolved location string. -/
def innerFallbackResources (locationString : String) : List ResourceItem :=
  [{ title := "📞 211 Information & Referral",
     description := "Call 2-1-1 for local help in " ++ locationString ++ " with your specific situation",
     url := "https://www.211.org" },
   { title := "🆘 988 Crisis Support",
     description := "Call or text 988 for mental health crisis support",
     url := "https://988lifeline.org" }]

/-- The outer-catch fallback resources (LLM call failed). -/
def outerFallbackResources : List ResourceItem :=
  [{ title := "📞 211 Help Line",
     description := "Call 2-1-1 for local assistance anywhere in the US",
     url := "https://www.211.org" },
   { title := "🆘 988 Crisis Support",
     description := "Call or text 988 for mental health crisis help",
     url := "https://988lifeline.org" }]

/-- Response portion of `app.post('/api/search-resources')`. -/
def searchResources (llmText : Option String)
    (jsonParse : String → Option (List ResourceItem)) (locationString : String) :
    SearchResult :=
  match llmText with
  | none => { success := true, resources := outerFallbackResources }
  | some resourceText =>
      let resources :=
        match extractArray resourceText with
        | some jsonMatch =>
            match jsonParse jsonMatch with
            | some items => items
            | none => innerFallbackResources locationString
        | none => innerFallbackResources locationString
      { success := true, resources := resources.take 4 }

/-! ## Claims about the continue-conversation endpoint -/

/-- C1: on a continuation request with caller-supplied turn counter `tc`, if
`tc` is at least 2 the handler returns the limit-reached / upgrade-required
result and makes no outbound LLM call; if `tc` is less than 2 it makes
exactly one outbound LLM call and, on provider success with text `t`, returns
`t` together with the new turn count `tc + 1`. -/
theorem continue_turn_limit (tc : Nat) (llm : Option String) :
    (2 ≤ tc →
      (continueConversation (some tc) llm).success = false ∧
      (continueConversation (some tc) llm).requiresUpgrade = true ∧
      (continueConversation (some tc) llm).error =
        some "Conversation limit reached. Upgrade to premium for unlimited conversations." ∧
      (continueConversation (some tc) llm).llmCalls = 0) ∧
    (tc < 2 →
      (continueConversation (some tc) llm).llmCalls = 1 ∧
      ∀ t, llm = some t →
        (continueConversation (some tc) llm).success = true ∧
        (continueConversation (some tc) llm).response = some t ∧
        (continueConversation (some tc) llm).conversationCount = some (tc + 1)) := by
  constructor
  · intro h
    simp only [continueConversation, Option.getD_some, if_pos h]
    exact ⟨trivial, trivial, trivial, trivial⟩
  · intro h
    have hn : ¬ (tc ≥ 2) := by omega
    constructor
    · simp only [continueConversation, Option.getD_some, if_neg hn]
      cases llm <;> rfl
    · intro t ht
      subst ht
      simp only [continueConversation, Option.getD_some, if_neg hn]
      exact ⟨trivial, trivial, trivial⟩

/-- Witness for C1 at turn counts 2 (limit reached, no call) and 0 (one call,
text returned with counter 1). -/
theorem continue_turn_limit_witness :
    (continueConversation (some 2) (some "hello")).llmCalls = 0 ∧
    (continueConversation (some 2) (some "hello")).requiresUpgrade = true ∧
    (continueConversation (some 0) (some "hello")).llmCalls = 1 ∧
    (continueConversation (some 0) (some "hello")).response = some "hello" ∧
    (continueConversation (some 0) (some "hello")).conversationCount = some 1 := by
  refine ⟨((continue_turn_limit 2 (some "hello")).1 (by omega)).2.2.2,
    ((continue_turn_limit 2 (some "hello")).1 (by omega)).2.1,
    ((continue_turn_limit 0 (some "hello")).2 (by omega)).1,
    (((continue_turn_limit 0 (some "hello")).2 (by omega)).2 "hello" rfl).2.1,
    (((continue_turn_limit 0 (some "hello")).2 (by omega)).2 "hello" rfl).2.2⟩

/-- C10: when the turn counter is absent from the request it defaults to 0:
the handler proceeds past the limit check (no upgrade-required result), makes
the one outbound LLM call for every provider outcome, and on provider success
returns the text with a new turn count of 1. -/
theorem continue_absent_counter (llm : Option String) :
    (continueConversation none llm).llmCalls = 1 ∧
    (continueConversation none llm).requiresUpgrade = false ∧
    ∀ t, llm = some t →
      (continueConversation none llm).success = true ∧
      (continueConversation none llm).response = some t ∧
      (continueConversation none llm).conversationCount = some 1 := by
  have hn : ¬ ((none : Option Nat).getD 0 ≥ 2) := by simp
  refine ⟨?_, ?_, ?_⟩
  · simp only [continueConversation, if_neg hn]
    cases llm <;> rfl
  · simp only [continueConversation, if_neg hn]
    cases llm <;> rfl
  · intro t ht
    subst ht
    simp only [continueConversation, if_neg hn]
    exact ⟨trivial, trivial, rfl⟩

/-- Witness for C10 at a successful provider outcome. -/
theorem continue_absent_counter_witness :
    (continueConversation none (some "ok")).llmCalls = 1 ∧
    (continueConversation none (some "ok")).success = true ∧
    (continueConversation none (some "ok")).conversationCount = some 1 :=
  ⟨(continue_absent_counter (some "ok")).1,
   ((continue_absent_counter (some "ok")).2.2 "ok" rfl).1,
   ((continue_absent_counter (some "ok")).2.2 "ok" rfl).2.2⟩

/-! ## Claims about the search-resources endpoint -/

/-- C2: for every LLM outcome and every JSON.parse outcome the
search-resources endpoint returns a successful result whose resource list has
length at most 4 (it degrades to a fallback list instead of erroring). -/
theorem searchResources_bounded (llmText : Option String)
    (jsonParse : String → Option (List ResourceItem)) (locationString : String) :
    (searchResources llmText jsonParse locationString).success = true ∧
    (searchResources llmText jsonParse locationString).resources.length ≤ 4 := by
  cases llmText with
  | none => exact ⟨rfl, by simp [searchResources, outerFallbackResources]⟩
  | some text =>
      refine ⟨rfl, ?_⟩
      have h : (searchResources (some text) jsonParse locationString).resources
          = (match extractArray text with
             | some jsonMatch =>
                 match jsonParse jsonMatch with
                 | some items => items
                 | none => innerFallbackResources locationString
             | none => innerFallbackResources locationString).take 4 := rfl
      rw [h, List.length_take]
      omega

/-- JSON.parse oracle of the C3 counterexample: parsing the text `[]`
succeeds and yields the empty array (as `JSON.parse` does). -/
def jsonParseEmptyArray : String → Option (List ResourceItem) :=
  fun jsonMatch => if jsonMatch = "[]" then some [] else none

/-- C3 counterexample: on the LLM output text `[]` the bracketed-array
extraction and the parse both succeed and yield zero items, and the endpoint
returns the empty resource list, not the two-entry static fallback. -/
theorem searchResources_empty_counterexample :
    extractArray "[]" = some "[]" ∧
    jsonParseEmptyArray "[]" = some [] ∧
    (searchResources (some "[]") jsonParseEmptyArray "your area").resources = [] ∧
    innerFallbackResources "your area" ≠ [] := by
  refine ⟨by decide, rfl, rfl, ?_⟩
  unfold innerFallbackResources
  exact List.cons_ne_nil _ _

/-- C3 (amended): when extraction and parse succeed but yield zero items the
endpoint returns the empty list; the two-entry static fallback is returned
exactly when no bracketed array is found or the parse throws. -/
theorem searchResources_zero_items :
    (∀ text jsonParse locationString jsonMatch,
        extractArray text = some jsonMatch → jsonParse jsonMatch = some ([] : List ResourceItem) →
        (searchResources (some text) jsonParse locationString).resources = []) ∧
    (∀ text (jsonParse : String → Option (List ResourceItem)) locationString,
        extractArray text = none →
        (searchResources (some text) jsonParse locationString).resources
          = innerFallbackResources locationString) ∧
    (∀ text jsonParse locationString jsonMatch,
        extractArray text = some jsonMatch → jsonParse jsonMatch = none →
        (searchResources (some text) jsonParse locationString).resources
          = innerFallbackResources locationString) := by
  refine ⟨?_, ?_, ?_⟩
  · intro text jsonParse locationString jsonMatch hE hP
    simp [searchResources, hE, hP]
  · intro text jsonParse locationString hE
    simp [searchResources, hE, innerFallbackResources]
  · intro text jsonParse locationString jsonMatch hE hP
    simp [searchResources, hE, hP, innerFallbackResources]

/-- Witness for the amended C3 at the concrete input of the counterexample. -/
theorem searchResources_zero_items_witness :
    (searchResources (some "resources [] here") jsonParseEmptyArray "Austin, Texas").resources
      = [] :=
  searchResources_zero_items.1 "resources [] here" jsonParseEmptyArray "Austin, Texas" "[]"
    (by decide) rfl

/-- C7: when the LLM output text contains a well-formed array that parses to
6 resource items, the endpoint returns exactly the first 4 of them, in their
original order (a prefix of the parsed list). -/
theorem searchResources_truncates (text jsonMatch : String)
    (jsonParse : String → Option (List ResourceItem)) (locationString : String)
    (items : List ResourceItem) (hE : extractArray text = some jsonMatch)
    (hP : jsonParse jsonMatch = some items) (h6 : items.length = 6) :
    (searchResources (some text) jsonParse locationString).resources = items.take 4 ∧
    (searchResources (some text) jsonParse locationString).resources.length = 4 := by
  have h : (searchResources (some text) jsonParse locationString).resources
      = items.take 4 := by
    simp [searchResources, hE, hP]
  refine ⟨h, ?_⟩
  rw [h, List.length_take]
  omega

/-- A concrete resource item for the C7 witness. -/
def sampleItem (n : Nat) : ResourceItem :=
  { title := "t" ++ natStr n, description := "d", url := "u" }

/-- JSON.parse oracle of the C7 witness: the bracketed text parses to six
items. -/
def jsonParseSix : String → Option (List ResourceItem) :=
  fun jsonMatch =>
    if jsonMatch = "[1,2,3,4,5,6]" then
      some [sampleItem 1, sampleItem 2, sampleItem 3, sampleItem 4, sampleItem 5, sampleItem 6]
    else none

/-- Witness for C7 on a six-item array embedded in surrounding text. -/
theorem searchResources_truncates_witness :
    (searchResources (some "resources: [1,2,3,4,5,6] end") jsonParseSix "loc").resources
      = [sampleItem 1, sampleItem 2, sampleItem 3, sampleItem 4] :=
  ((searchResources_truncates "resources: [1,2,3,4,5,6] end" "[1,2,3,4,5,6]" jsonParseSix "loc"
      [sampleItem 1, sampleItem 2, sampleItem 3, sampleItem 4, sampleItem 5, sampleItem 6]
      (by decide) rfl (by decide)).1).trans (by decide)

/-! ## The detect-location endpoint

Embeds `app.post('/api/detect-location')` (server.js): normalization of the
raw client address (first entry of a comma-separated `x-forwarded-for` chain,
IPv6-mapped-IPv4 prefix stripped), the loopback/private-address check, the
primary geolocation call with its backup inside the primary's catch block,
and the undetected fallback.  The two outbound calls are oracles:
`primary : Option GeoPrimary` is the parsed body of the primary provider
(`none` = the fetch or its `json()` threw: network error or unparseable
body); `backup : Option GeoBackup` likewise for the secondary provider.
`primaryCalled` / `backupCalled` record which outbound calls were made. -/

/-- Parsed body of the primary geolocation provider (the fields requested in
the query string). -/
structure GeoPrimary where
  status : Option String
  city : Option String
  regionName : Option String
  country : Option String
  lat : Option Int
  lon : Option Int
  isp : Option String
deriving DecidableEq

/-- Parsed body of the secondary geolocation provider. -/
structure GeoBackup where
  city : Option String
  region : Option String
  country : Option String
deriving DecidableEq

/-- The JSON result of the detect-location endpoint, plus outbound-call
accounting. -/
structure LocationResult where
  success : Bool
  detected : Bool
  state : Option String
  city : Option String
  country : Option String
  lat : Option Int
  lon : Option Int
  ip : Option String
  primaryCalled : Bool
  backupCalled : Bool
deriving DecidableEq

/-- Address cleanup: first entry of a comma-separated chain (trimmed), then
the `::ffff:` IPv6-mapped-IPv4 prefix stripped. -/
def normalizeIP (raw : Option String) : Option String :=
  match raw with
  | none => none
  | some s =>
      let s1 := if strIncludes s "," then strTrim (takeBeforeComma s) else s
      let s2 := if strStartsWith s1 "::ffff:" then strDropChars s1 7 else s1
      some s2

/-- The guard of the external-lookup branch: `userIP && userIP !== '::1' &&
!userIP.startsWith('127.') && !userIP.startsWith('192.168.') &&
!userIP.startsWith('10.')`. -/
def isPublicIP : Option String → Bool
  | none => false
  | some s =>
      s != "" && s != "::1" && !(strStartsWith s "127.") &&
        !(strStartsWith s "192.168.") && !(strStartsWith s "10.")

/-- The enhanced fallback response (`detected: false`). -/
def locFallback (ip : Option String) (p b : Bool) : LocationResult :=
  { success := true, detected := false, state := some "Your State",
    city := some "Your City", country := some "United States",
    lat := none, lon := none, ip := ip, primaryCalled := p, backupCalled := b }

/-- `app.post('/api/detect-location')`. -/
def detectLocation (raw : Option String) (primary : Option GeoPrimary)
    (backup : Option GeoBackup) : LocationResult :=
  let userIP := normalizeIP raw
  if isPublicIP userIP then
    match primary with
    | some geoData =>
        if geoData.status == some "success" || truthyStr geoData.city then
          { success := true, detected := true, state := geoData.regionName,
            city := geoData.city, country := geoData.country,
            lat := geoData.lat, lon := geoData.lon, ip := userIP,
            primaryCalled := true, backupCalled := false }
        else locFallback userIP true false
    | none =>
        match backup with
        | some backupData =>
            if truthyStr backupData.city && truthyStr backupData.region then
              { success := true, detected := true, state := backupData.region,
                city := backupData.city, country := backupData.country,
                lat := none, lon := none, ip := userIP,
                primaryCalled := true, backupCalled := true }
            else locFallback userIP true true
        | none => locFallback userIP true true
  else locFallback userIP false false

/-- Modelled from the spec: the words loopback or private-range address of
4.1 step 2, read as the IPv4/IPv6 loopback addresses plus the RFC 1918
private ranges 10.0.0.0/8, 172.16.0.0/12 and 192.168.0.0/16 (the code itself
has no 172.16/12 check; this definition follows the spec's words for the
refinement comparison of C5). -/
def isLoopbackOrPrivateSpec (s : String) : Bool :=
  s == "::1" || strStartsWith s "127." || strStartsWith s "10." ||
    strStartsWith s "192.168." ||
    (List.range 16).any (fun k => strStartsWith s ("172." ++ natStr (16 + k) ++ "."))

/-! ## Claims about the detect-location endpoint -/

/-- Primary-provider body of the C4 counterexample: a body that parses but
carries a non-success status (what the primary provider returns for a
reserved or unknown address). -/
def failStatusBody : GeoPrimary :=
  { status := some "fail", city := none, regionName := none, country := none,
    lat := none, lon := none, isp := none }

/-- Secondary-provider body with usable city and region fields. -/
def usableBackupBody : GeoBackup :=
  { city := some "Springfield", region := some "Illinois", country := some "US" }

/-- C4 counterexample: for the public address 8.8.8.8, a primary body that
parses but carries a non-success status does not trigger the secondary
provider, even though the secondary would yield usable city and region
fields; the result is the undetected fallback rather than detected = true
with the secondary's fields. -/
theorem detect_no_backup_on_fail_status :
    (detectLocation (some "8.8.8.8") (some failStatusBody) (some usableBackupBody)).backupCalled
      = false ∧
    (detectLocation (some "8.8.8.8") (some failStatusBody) (some usableBackupBody)).detected
      = false := by
  decide

/-- C4 (amended): the secondary geolocation provider is consulted exactly
when the primary call throws (network error or unparseable body, the oracle
value none); when it is consulted and yields usable city and region fields
the result has detected = true carrying those fields.  A primary body that
parses — whatever status it carries — never triggers the secondary. -/
theorem detect_backup_fallback (raw : Option String) (backup : Option GeoBackup)
    (hpub : isPublicIP (normalizeIP raw) = true) :
    (∀ city region country, city ≠ "" → region ≠ "" →
        backup = some { city := some city, region := some region, country := country } →
        (detectLocation raw none backup).detected = true ∧
        (detectLocation raw none backup).city = some city ∧
        (detectLocation raw none backup).state = some region ∧
        (detectLocation raw none backup).backupCalled = true) ∧
    (∀ g : GeoPrimary, (detectLocation raw (some g) backup).backupCalled = false) := by
  constructor
  · intro city region country hcity hregion hb
    subst hb
    have ht : (truthyStr (some city) && truthyStr (some region)) = true := by
      simp [truthyStr, hcity, hregion]
    simp only [detectLocation, hpub, if_true, ht]
    exact ⟨trivial, trivial, trivial, trivial⟩
  · intro g
    simp only [detectLocation, hpub, if_true]
    cases hif : (g.status == some "success" || truthyStr g.city) <;> simp [hif, locFallback]

/-- Witness for the amended C4: primary throws on a public address, secondary
yields Springfield, Illinois. -/
theorem detect_backup_fallback_witness :
    (detectLocation (some "8.8.8.8") none (some usableBackupBody)).detected = true ∧
    (detectLocation (some "8.8.8.8") none (some usableBackupBody)).state = some "Illinois" ∧
    (detectLocation (some "8.8.8.8") none (some usableBackupBody)).backupCalled = true := by
  have h := (detect_backup_fallback (some "8.8.8.8") (some usableBackupBody) (by decide)).1
      "Springfield" "Illinois" (some "US") (by decide) (by decide) rfl
  exact ⟨h.1, h.2.2.1, h.2.2.2⟩

/-- Primary-provider body of the C5 counterexample: a successful lookup. -/
def okPrimaryBody : GeoPrimary :=
  { status := some "success", city := some "Dallas", regionName := some "Texas",
    country := some "United States", lat := some 32, lon := some (-96), isp := some "x" }

/-- C5 counterexample: 172.16.5.4 is a private-range address (RFC 1918,
172.16.0.0/12), yet the handler performs the outbound primary geolocation
call for it and can return detected = true (the code's private check covers
only ::1, 127.*, 192.168.* and 10.*). -/
theorem detect_private_range_counterexample :
    isLoopbackOrPrivateSpec "172.16.5.4" = true ∧
    (detectLocation (some "172.16.5.4") (some okPrimaryBody) none).primaryCalled = true ∧
    (detectLocation (some "172.16.5.4") (some okPrimaryBody) none).detected = true := by
  decide

/-- C5 (amended): every client address whose normalization (first entry of a
comma-separated chain, ::ffff: prefix stripped) is ::1 or starts with 127.,
192.168. or 10. — the code's loopback/private check, which omits the
172.16/12 private range — yields detected = false with no outbound
geolocation call to either provider. -/
theorem detect_private_no_call (raw : Option String) (primary : Option GeoPrimary)
    (backup : Option GeoBackup) (s : String) (hs : normalizeIP raw = some s)
    (hpriv : s = "::1" ∨ strStartsWith s "127." = true ∨
      strStartsWith s "192.168." = true ∨ strStartsWith s "10." = true) :
    (detectLocation raw primary backup).detected = false ∧
    (detectLocation raw primary backup).primaryCalled = false ∧
    (detectLocation raw primary backup).backupCalled = false := by
  have hpub : isPublicIP (normalizeIP raw) = false := by
    rw [hs]
    rcases hpriv with h | h | h | h
    · subst h; rfl
    · simp [isPublicIP, h]
    · simp [isPublicIP, h]
    · simp [isPublicIP, h]
  simp [detectLocation, hpub, locFallback]

/-- Witness for the amended C5: a forwarded chain whose first entry is the
IPv6-mapped loopback address; no outbound call is made even though both
providers would answer. -/
theorem detect_private_no_call_witness :
    (detectLocation (some "::ffff:127.0.0.1, 8.8.8.8") (some okPrimaryBody)
        (some usableBackupBody)).detected = false ∧
    (detectLocation (some "::ffff:127.0.0.1, 8.8.8.8") (some okPrimaryBody)
        (some usableBackupBody)).primaryCalled = false := by
  have h := detect_private_no_call (some "::ffff:127.0.0.1, 8.8.8.8") (some okPrimaryBody)
      (some usableBackupBody) "127.0.0.1" (by decide) (Or.inr (Or.inl (by decide)))
  exact ⟨h.1, h.2.1⟩

/-! ## Query synthesis of the search-resources endpoint

Embeds the `contextualSearchTerms` construction and the dimension-based
fallback of `app.post('/api/search-resources')` (server.js): an ordered chain
of keyword tests over the lower-cased narrative, each matching group pushing
exactly one topic phrase; if none pushes, one phrase per concern category. -/

/-- `const locationString = city && state ? city + ", " + state : location ||
'your area'`. -/
def locationStringOf (city state location : Option String) : String :=
  if truthyStr city && truthyStr state then city.getD "" ++ ", " ++ state.getD ""
  else if truthyStr location then location.getD "" else "your area"

/-- The ordered chain of keyword tests over the lower-cased narrative. -/
def contextualSearchTerms (userContext : String) (locationString : String) : List String :=
  let context := strToLower userContext
  (if strIncludes context "job" || strIncludes context "unemploy" ||
      strIncludes context "work" then
    ["job search unemployment assistance " ++ locationString] else []) ++
  ((if strIncludes context "money" || strIncludes context "financial" ||
      strIncludes context "bills" || strIncludes context "rent" then
    ["emergency financial assistance rent help " ++ locationString] else []) ++
  ((if strIncludes context "storm" || strIncludes context "weather" ||
      strIncludes context "flood" || strIncludes context "emergency" then
    ["weather emergency assistance disaster relief " ++ locationString] else []) ++
  ((if strIncludes context "housing" || strIncludes context "homeless" ||
      strIncludes context "evict" then
    ["housing assistance emergency shelter " ++ locationString] else []) ++
  ((if strIncludes context "health" || strIncludes context "medical" ||
      strIncludes context "doctor" || strIncludes context "weight" ||
      strIncludes context "fat" then
    ["weight loss programs medical weight management " ++ locationString] else []) ++
  ((if strIncludes context "stress" || strIncludes context "anxiety" ||
      strIncludes context "depress" then
    ["mental health counseling support groups " ++ locationString] else []) ++
  (if strIncludes context "rabbi" || strIncludes context "church" ||
      strIncludes context "spiritual" || strIncludes context "faith" then
    ["spiritual counseling faith community support " ++ locationString] else []))))))

/-- The category → phrase switch of the dimension-based fallback. -/
def categorySearchTerm (locationString : String) (area : String) : String :=
  if area = "financial" then "financial assistance emergency aid " ++ locationString
  else if area = "occupational" then "job search career services " ++ locationString
  else if area = "emotional" then "mental health support counseling " ++ locationString
  else if area = "physical" then "healthcare community health centers " ++ locationString
  else if area = "social" then "support groups community resources " ++ locationString
  else if area = "environmental" then "housing assistance emergency shelter " ++ locationString
  else if area = "intellectual" then "adult education learning resources " ++ locationString
  else if area = "spiritual" then "spiritual wellness community support " ++ locationString
  else "wellness resources " ++ locationString

/-- The keyword/narrative part of the endpoint followed by the fallback:
`if (userContext && userContext.trim()) { ... } if
(contextualSearchTerms.length === 0) { ...map... }`. -/
def synthesizeSearchTerms (userContext : Option String) (concerningAreas : List String)
    (locationString : String) : List String :=
  let terms :=
    match userContext with
    | some ctx => if strTrim ctx != "" then contextualSearchTerms ctx locationString else []
    | none => []
  if terms.isEmpty then concerningAreas.map (categorySearchTerm locationString) else terms

/-- The keyword table of the chain, as ordered data: each group's keyword set
together with its topic phrase (location appended when used). -/
def keywordGroups : List (List String × String) :=
  [(["job", "unemploy", "work"], "job search unemployment assistance "),
   (["money", "financial", "bills", "rent"], "emergency financial assistance rent help "),
   (["storm", "weather", "flood", "emergency"], "weather emergency assistance disaster relief "),
   (["housing", "homeless", "evict"], "housing assistance emergency shelter "),
   (["health", "medical", "doctor", "weight", "fat"], "weight loss programs medical weight management "),
   (["stress", "anxiety", "depress"], "mental health counseling support groups "),
   (["rabbi", "church", "spiritual", "faith"], "spiritual counseling faith community support ")]

/-- One phrase per matching keyword group, in table order. -/
def matchedTerms (userContext locationString : String) : List String :=
  (keywordGroups.filter
    (fun g => g.1.any (fun k => strIncludes (strToLower userContext) k))).map
    (fun g => g.2 ++ locationString)

theorem cons_if_append (b : Bool) (x : String) (r : List String) :
    (if b then [x] else []) ++ r = if b then x :: r else r := by
  cases b <;> simp

/-- C6: each matching keyword group contributes exactly one topic phrase, in
the keyword-table's fixed order (the chain equals the filter of the ordered
table); the per-category fallback is consulted exactly when the narrative is
absent, blank or matches no group; and a narrative containing rent with
concern categories financial and social yields a list led by the
emergency-financial-assistance/rent phrase. -/
theorem synthesize_keyword_precedence :
    (∀ ctx loc, contextualSearchTerms ctx loc = matchedTerms ctx loc) ∧
    (∀ ctx areas loc, strTrim ctx ≠ "" → contextualSearchTerms ctx loc ≠ [] →
        synthesizeSearchTerms (some ctx) areas loc = contextualSearchTerms ctx loc) ∧
    (∀ areas loc, synthesizeSearchTerms none areas loc
        = areas.map (categorySearchTerm loc)) ∧
    (∀ ctx areas loc, contextualSearchTerms ctx loc = [] →
        synthesizeSearchTerms (some ctx) areas loc = areas.map (categorySearchTerm loc)) ∧
    (synthesizeSearchTerms (some "I cannot pay rent") ["financial", "social"] "your area").head?
      = some "emergency financial assistance rent help your area" := by
  refine ⟨?_, ?_, ?_, ?_, ?_⟩
  · intro ctx loc
    unfold contextualSearchTerms matchedTerms keywordGroups
    simp only [List.filter_cons, List.filter_nil, List.any_cons, List.any_nil,
      Bool.or_false, Bool.or_assoc, List.map_nil, apply_ite (List.map _),
      List.map_cons, cons_if_append]
  · intro ctx areas loc h1 h2
    have hb : (strTrim ctx != "") = true := bne_iff_ne.mpr h1
    simp only [synthesizeSearchTerms, hb, if_true]
    rw [if_neg]
    simpa [List.isEmpty_iff] using h2
  · intro areas loc
    simp [synthesizeSearchTerms]
  · intro ctx areas loc h
    simp [synthesizeSearchTerms, h]
  · decide

/-- Witness for C6 at a rent narrative with financial and social concerns. -/
theorem synthesize_keyword_precedence_witness :
    synthesizeSearchTerms (some "I cannot pay rent") ["financial", "social"] "your area"
      = contextualSearchTerms "I cannot pay rent" "your area" :=
  synthesize_keyword_precedence.2.1 "I cannot pay rent" ["financial", "social"] "your area"
    (by decide) (by decide)

/-! ## The prompt builders

Embeds `createPreliminaryPrompt` and `createWellnessPrompt` (server.js).  The
eight wellness dimensions form a closed set, so the `dimensionNames` lookup
tables become total functions; a ratings object becomes its entry list
(`Object.entries` order); the template literals become explicit
concatenations with their interpolation holes. -/

inductive Dimension where
  | physical
  | financial
  | emotional
  | environmental
  | social
  | occupational
  | intellectual
  | spiritual
deriving DecidableEq

/-- The `dimensionNames` table of `createPreliminaryPrompt`. -/
def prelimDimensionName : Dimension → String
  | .physical => "physical health"
  | .financial => "financial situation"
  | .emotional => "emotional well-being"
  | .environmental => "living environment"
  | .social => "relationships"
  | .occupational => "work/career"
  | .intellectual => "mental stimulation"
  | .spiritual => "spiritual well-being"

/-- The `dimensionNames` table of `createWellnessPrompt`. -/
def mainDimensionName : Dimension → String
  | .physical => "Physical"
  | .financial => "Financial"
  | .emotional => "Emotional"
  | .environmental => "Environmental"
  | .social => "Social"
  | .occupational => "Occupational"
  | .intellectual => "Intellectual"
  | .spiritual => "Spiritual"

/-- One prior check-in of the caller-supplied user history. -/
structure HistCheckin where
  dateOnly : String
  context : Option String
deriving DecidableEq

structure UserHistory where
  checkins : List HistCheckin
deriving DecidableEq

/-- The submitted check-in of the wellness-response request. -/
structure Checkin where
  ratings : List (Dimension × Nat)
  context : Option String
  dateOnly : String

/-- One rendered ratings entry: `dimensionNames[dim]: rating/5`. -/
def ratingLine (names : Dimension → String) (p : Dimension × Nat) : String :=
  names p.1 ++ ": " ++ natStr p.2 ++ "/5"

/-- `createPreliminaryPrompt(ratings, userHistory)`. -/
def createPreliminaryPrompt (ratings : List (Dimension × Nat)) (userHistory : UserHistory) :
    String :=
  let ratedCount := ratings.length
  let recentCheckins := userHistory.checkins
  let isFirstTimeUser := recentCheckins.length == 0
  "You are a supportive VYBIN wellness companion. A user just completed their daily check-in, rating " ++
  (natStr ratedCount ++
  (" out of 8 wellness dimensions.\n\nTHEIR RATINGS:\n" ++
  (joinSep "\n" (ratings.map (ratingLine prelimDimensionName)) ++
  ("\n\nUSER CONTEXT:\n" ++
  ((if isFirstTimeUser then
      "This is their FIRST time using VYBIN - you have NO previous knowledge about them."
    else
      "They have " ++
      (natStr recentCheckins.length ++
       " previous check-ins. You may acknowledge patterns but focus on today's ratings.")) ++
  ("\n\nCRITICAL INSTRUCTIONS:\n- Acknowledge what you notice from their ratings in a warm, personalized way\n- Be specific about both challenges AND strengths you see\n- " ++
  ((if isFirstTimeUser then
      "CRITICAL: Do NOT make ANY assumptions about why they rated things low - you know NOTHING about their background, work, living situation, relationships, or circumstances. Only acknowledge the ratings themselves."
    else
      "You may reference previous patterns, but focus on today") ++
  "\n- Simply acknowledge the ratings without assuming causes, conditions, or situations\n- Do NOT infer work problems, relationship issues, or life circumstances from ratings alone\n- Keep it brief (2-3 sentences max)  \n- Sound like a caring friend who's paying attention to what they told you\n- Do NOT ask questions yet - just acknowledge what you see\n- End with expressing interest in learning more about their situation\n\nTONE: Warm, attentive, specific to their actual ratings, but don't assume causes\n\nResponse:")))))))

/-- `createWellnessPrompt(checkin, userHistory, preliminaryInsights)`. -/
def createWellnessPrompt (checkin : Checkin) (userHistory : UserHistory)
    (preliminaryInsights : String) : String :=
  let ratings := checkin.ratings
  let context := checkin.context
  let concerns := ratings.filter (fun p => p.2 ≤ 2)
  let recentCheckins := userHistory.checkins.drop (userHistory.checkins.length - 7)
  let isFirstTimeUser := recentCheckins.isEmpty
  let todayCheckins := recentCheckins.filter (fun c => c.dateOnly == checkin.dateOnly)
  let isFirstCheckinToday := todayCheckins.length ≤ 1
  "You are a VYBIN wellness companion continuing a conversation. You already gave preliminary insights, now provide deeper support.\n\nCONTEXT: You already acknowledged their ratings and said: \"" ++
  (preliminaryInsights ++
  ("\"\n\nTODAY'S SPECIFIC SITUATION:\nWhat they told you: \"" ++
  ((if truthyStr context then context.getD "" else "No additional details provided") ++
  ("\"\n\nRatings given: " ++
  (joinSep ", " (ratings.map (ratingLine mainDimensionName)) ++
  ("\n" ++
  ((if 0 < concerns.length then
      "Areas needing support: " ++
        joinSep ", " (concerns.map (fun p => mainDimensionName p.1))
    else "") ++
  ("\n\nUSER HISTORY CONTEXT:\n" ++
  ((if isFirstTimeUser then "This is their first time using VYBIN."
    else if isFirstCheckinToday then
      "This is their first check-in today. They have " ++
      (natStr recentCheckins.length ++ " total previous check-ins.")
    else
      "This is check-in #" ++
      (natStr todayCheckins.length ++
       (" today. They have " ++ (natStr recentCheckins.length ++ " total check-ins.")))) ++
  ("\n\nCRITICAL RESPONSE REQUIREMENTS:\n- Do NOT say \"hello\" or introduce yourself again\n- Do NOT repeat observations you already made in preliminary insights  \n- Respond specifically to what they shared about their situation TODAY\n- " ++
  ((if isFirstTimeUser then
      "CRITICAL: Do NOT make ANY assumptions about their work, relationships, living situation, or circumstances. You know NOTHING about their background except what they explicitly told you today."
    else
      "You may reference patterns from their previous check-ins, but focus on today") ++
  "\n- ONLY reference circumstances they explicitly shared - do not infer or assume anything\n- If they didn't mention work problems, don't assume work problems exist\n- If they didn't mention relationship issues, don't assume relationship issues exist  \n- Base your response ONLY on what they actually told you\n- Provide practical, relevant guidance for their actual current situation\n- Be conversational and supportive, not clinical or generic\n\nLENGTH: 2 paragraphs maximum\nTONE: Supportive friend who's been listening to today's conversation\n\nResponse:")))))))))))

/-! ## Character-set helpers for the prompt lemmas -/

theorem getLast?_mem {l : List Char} {c : Char} (h : l.getLast? = some c) : c ∈ l := by
  obtain ⟨hne, rfl⟩ := List.mem_getLast?_eq_getLast (Option.mem_def.mpr h)
  exact List.getLast_mem hne

theorem getLast?_ne_of_chars {l : List Char} (h : ∀ c ∈ l, c ≠ 'N' ∧ c ≠ 'Y') :
    l.getLast? ≠ some 'N' := by
  intro hl
  exact ((h 'N' (getLast?_mem hl)).1) rfl

theorem head?_ne_of_chars {l : List Char} (h : ∀ c ∈ l, c ≠ 'N' ∧ c ≠ 'Y') :
    l.head? ≠ some 'Y' := by
  intro hl
  cases l with
  | nil => simp at hl
  | cons c cs =>
    have hc : c = 'Y' := by simpa using hl
    exact (h c (List.mem_cons_self _ _)).2 hc

theorem getLast?_append_right {α : Type} {a b : List α} (hb : b ≠ []) :
    (a ++ b).getLast? = b.getLast? := by
  induction a with
  | nil => rfl
  | cons c a' ih =>
    have hne : a' ++ b ≠ [] := fun h => hb (List.append_eq_nil.mp h).2
    rw [List.cons_append]
    cases hx : a' ++ b with
    | nil => exact absurd hx hne
    | cons y ys =>
      rw [List.getLast?_cons_cons, ← hx]
      exact ih

theorem head?_append_left {α : Type} {a : List α} (b : List α) (ha : a ≠ []) :
    (a ++ b).head? = a.head? := by
  cases a with
  | nil => exact absurd rfl ha
  | cons c a' => rfl

theorem natStr_safe (n : Nat) : ∀ c ∈ (natStr n).data, c ≠ 'N' ∧ c ≠ 'Y' := by
  intro c hc
  have h := natStr_digits n c hc
  have hN : ('N').toNat = 78 := rfl
  have hY : ('Y').toNat = 89 := rfl
  constructor <;> rintro rfl <;> omega

theorem natStr_countNY (n : Nat) : countNY (natStr n).data = 0 :=
  countNY_nomem (fun hm => ((natStr_safe n) 'N' hm).1 rfl)

theorem natStr_last (n : Nat) : (natStr n).data.getLast? ≠ some 'N' :=
  getLast?_ne_of_chars (natStr_safe n)

theorem prelimName_safe (d : Dimension) :
    ∀ c ∈ (prelimDimensionName d).data, c ≠ 'N' ∧ c ≠ 'Y' := by
  cases d <;> decide

theorem ratingLine_safe (p : Dimension × Nat) :
    ∀ c ∈ (ratingLine prelimDimensionName p).data, c ≠ 'N' ∧ c ≠ 'Y' := by
  intro c hc
  unfold ratingLine at hc
  simp only [String.data_append, List.append_assoc, List.mem_append] at hc
  rcases hc with hc | hc | hc | hc
  · exact prelimName_safe p.1 c hc
  · exact (by decide : ∀ c ∈ (": ").data, c ≠ 'N' ∧ c ≠ 'Y') c hc
  · exact natStr_safe p.2 c hc
  · exact (by decide : ∀ c ∈ ("/5").data, c ≠ 'N' ∧ c ≠ 'Y') c hc

theorem prelimBlock_safe (ratings : List (Dimension × Nat)) :
    ∀ c ∈ (joinSep "\n" (ratings.map (ratingLine prelimDimensionName))).data,
      c ≠ 'N' ∧ c ≠ 'Y' := by
  intro c hc
  refine joinSep_chars (P := fun c => c ≠ 'N' ∧ c ≠ 'Y') (by decide) ?_ c hc
  intro x hx
  obtain ⟨p, hp, rfl⟩ := List.mem_map.mp hx
  exact ratingLine_safe p

theorem prelimBlock_countNY (ratings : List (Dimension × Nat)) :
    countNY (joinSep "\n" (ratings.map (ratingLine prelimDimensionName))).data = 0 :=
  countNY_nomem (fun hm => ((prelimBlock_safe ratings) 'N' hm).1 rfl)

theorem prelimBlock_last (ratings : List (Dimension × Nat)) :
    (joinSep "\n" (ratings.map (ratingLine prelimDimensionName))).data.getLast? ≠ some 'N' :=
  getLast?_ne_of_chars (prelimBlock_safe ratings)

theorem ratingLine_name (names : Dimension → String) (p : Dimension × Nat) :
    strContains (ratingLine names p) (names p.1) := by
  unfold ratingLine
  exact strContains_appendL _ (strContains_appendL _ (strContains_appendL _ (strContains_refl _)))

/-- No `NY` character pair occurs in a returning-user preliminary prompt: its
constant segments have none, its interpolations (counts, ratings lines) use
only digits, lower-case letters and punctuation, and no segment boundary
forms one. -/
theorem prelim_returning_countNY (ratings : List (Dimension × Nat)) (h0 : HistCheckin)
    (hs : List HistCheckin) :
    countNY (createPreliminaryPrompt ratings { checkins := h0 :: hs }).data = 0 := by
  have hb : (((h0 :: hs) : List HistCheckin).length == 0) = false := by simp
  simp only [createPreliminaryPrompt, hb, Bool.false_eq_true, if_false, String.data_append]
  refine countNY_append_zero (by decide) ?_ (bnd_of_last (by decide))
  refine countNY_append_zero (natStr_countNY _) ?_ (bnd_of_last (natStr_last _))
  refine countNY_append_zero (by decide) ?_ (bnd_of_last (by decide))
  refine countNY_append_zero (prelimBlock_countNY _) ?_ (bnd_of_last (prelimBlock_last _))
  refine countNY_append_zero (by decide) ?_ (bnd_of_last (by decide))
  refine countNY_append_zero ?_ ?_ (bnd_of_head ?_)
  · refine countNY_append_zero (by decide) ?_ (bnd_of_last (by decide))
    exact countNY_append_zero (natStr_countNY _) (by decide) (bnd_of_last (natStr_last _))
  · refine countNY_append_zero (by decide) ?_ (bnd_of_last (by decide))
    exact countNY_append_zero (by decide) (by decide) (bnd_of_last (by decide))
  · rw [head?_append_left _ (by decide)]
    decide

/-- C9: the preliminary prompt includes the strengthened no-causal-assumptions
instruction (its marker text make ANY assumptions) if and only if the user
history contains zero prior check-ins; when prior check-ins exist the prompt
instead permits referencing prior patterns. -/
theorem prelim_first_time_assumptions (ratings : List (Dimension × Nat)) (hist : UserHistory) :
    (strContains (createPreliminaryPrompt ratings hist) "make ANY assumptions" ↔
      hist.checkins = []) ∧
    (hist.checkins ≠ [] →
      strContains (createPreliminaryPrompt ratings hist)
        "You may reference previous patterns") := by
  obtain ⟨cks⟩ := hist
  have hfirst : cks = [] →
      strContains (createPreliminaryPrompt ratings { checkins := [] })
        "make ANY assumptions" := by
    intro _
    have hb : (([] : List HistCheckin).length == 0) = true := by simp
    simp only [createPreliminaryPrompt, hb, if_true]
    apply strContains_appendR
    apply strContains_appendR
    apply strContains_appendR
    apply strContains_appendR
    apply strContains_appendR
    apply strContains_appendR
    apply strContains_appendR
    apply strContains_appendL
    decide
  constructor
  · constructor
    · intro hcont
      cases cks with
      | nil => rfl
      | cons h0 hs =>
        exfalso
        have h1 := countNY_infix hcont
        rw [prelim_returning_countNY] at h1
        have h2 : countNY ("make ANY assumptions").data = 1 := by decide
        omega
    · intro he
      have he2 : cks = [] := he
      subst he2
      exact hfirst rfl
  · intro hne
    cases cks with
    | nil => exact absurd rfl hne
    | cons h0 hs =>
      have hb : (((h0 :: hs) : List HistCheckin).length == 0) = false := by simp
      simp only [createPreliminaryPrompt, hb, Bool.false_eq_true, if_false]
      apply strContains_appendR
      apply strContains_appendR
      apply strContains_appendR
      apply strContains_appendR
      apply strContains_appendR
      apply strContains_appendR
      apply strContains_appendR
      apply strContains_appendL
      decide

/-- Witness for C9: a one-entry history selects the reference-prior-patterns
instruction, an empty history selects the strengthened marker. -/
theorem prelim_first_time_assumptions_witness :
    strContains
      (createPreliminaryPrompt [(Dimension.financial, 1)]
        { checkins := [{ dateOnly := "2025-01-01", context := none }] })
      "You may reference previous patterns" ∧
    strContains (createPreliminaryPrompt [(Dimension.financial, 1)] { checkins := [] })
      "make ANY assumptions" :=
  ⟨(prelim_first_time_assumptions [(Dimension.financial, 1)]
      { checkins := [{ dateOnly := "2025-01-01", context := none }] }).2 (by simp),
   ((prelim_first_time_assumptions [(Dimension.financial, 1)] { checkins := [] }).1).mpr rfl⟩

/-- C8 counterexample: for the ratings mapping financial = 1 (a concern),
physical = 4, the preliminary prompt mentions the concern label financial
situation exactly once — inside the full ratings list — so it does not list
the concern subset separately from the full list; the main wellness prompt by
contrast mentions the concern label Financial twice (ratings list plus the
Areas-needing-support line). -/
theorem prelim_no_concern_list_counterexample :
    countOccur ("financial situation").data
      (createPreliminaryPrompt [(Dimension.financial, 1), (Dimension.physical, 4)]
        { checkins := [] }).data = 1 ∧
    countOccur ("Financial").data
      (createWellnessPrompt
        { ratings := [(Dimension.financial, 1), (Dimension.physical, 4)],
          context := some "x", dateOnly := "2025-01-01" }
        { checkins := [] } "prior").data = 2 := by
  constructor <;> decide

/-- C8 (amended): for every ratings mapping with at least one entry rated at
most 2, the preliminary prompt and the main wellness prompt each contain the
dimension label of every dimension present in the input ratings, and the main
wellness prompt additionally lists the concern subset (entries rated at most
2) separately from the full ratings list, in its Areas-needing-support line;
the preliminary prompt renders only the full ratings list. -/
theorem prompts_render_ratings (checkin : Checkin) (hist : UserHistory) (prelim : String)
    (hc : ∃ p ∈ checkin.ratings, p.2 ≤ 2) :
    (∀ p ∈ checkin.ratings,
        strContains (createPreliminaryPrompt checkin.ratings hist) (prelimDimensionName p.1) ∧
        strContains (createWellnessPrompt checkin hist prelim) (mainDimensionName p.1)) ∧
    strContains (createWellnessPrompt checkin hist prelim)
      ("Areas needing support: " ++
        joinSep ", " ((checkin.ratings.filter (fun p => p.2 ≤ 2)).map
          (fun p => mainDimensionName p.1))) := by
  have hlen : 0 < (checkin.ratings.filter (fun p => p.2 ≤ 2)).length := by
    obtain ⟨p, hp, hple⟩ := hc
    exact List.length_pos.mpr
      (List.ne_nil_of_mem (List.mem_filter.mpr ⟨hp, by simpa using hple⟩))
  constructor
  · intro p hp
    constructor
    · simp only [createPreliminaryPrompt]
      apply strContains_appendR
      apply strContains_appendR
      apply strContains_appendR
      apply strContains_appendL
      exact strContains_trans (strContains_joinSep (List.mem_map_of_mem _ hp))
        (ratingLine_name _ p)
    · simp only [createWellnessPrompt]
      apply strContains_appendR
      apply strContains_appendR
      apply strContains_appendR
      apply strContains_appendR
      apply strContains_appendR
      apply strContains_appendL
      exact strContains_trans (strContains_joinSep (List.mem_map_of_mem _ hp))
        (ratingLine_name _ p)
  · simp only [createWellnessPrompt]
    rw [if_pos hlen]
    apply strContains_appendR
    apply strContains_appendR
    apply strContains_appendR
    apply strContains_appendR
    apply strContains_appendR
    apply strContains_appendR
    apply strContains_appendR
    apply strContains_appendL
    exact strContains_refl _

/-- Witness for the amended C8 at ratings financial = 1, physical = 4 with an
empty history. -/
theorem prompts_render_ratings_witness :
    strContains
      (createPreliminaryPrompt [(Dimension.financial, 1), (Dimension.physical, 4)]
        { checkins := [] }) "financial situation" ∧
    strContains
      (createWellnessPrompt
        { ratings := [(Dimension.financial, 1), (Dimension.physical, 4)],
          context := some "lost my job", dateOnly := "2025-01-01" }
        { checkins := [] } "prior")
      ("Areas needing support: " ++
        joinSep ", " ((([((Dimension.financial : Dimension), (1 : Nat)),
            (Dimension.physical, 4)]).filter (fun p => p.2 ≤ 2)).map
          (fun p => mainDimensionName p.1))) := by
  have h := prompts_render_ratings
    { ratings := [(Dimension.financial, 1), (Dimension.physical, 4)],
      context := some "lost my job", dateOnly := "2025-01-01" }
    { checkins := [] } "prior" (by decide)
  exact ⟨(h.1 (Dimension.financial, 1) (by simp)).1, h.2⟩

end WellCheck
